import Mathlib

/-!
Shallow embedding of the prediction pipeline of `ENG_APP.py` (MOF toluene
adsorption predictor).

The program is a single script: at startup it loads seven pre-fitted
artifacts with `joblib.load` (`load_models`, lines 60-72), reads five
bounded numeric inputs from sidebar widgets (lines 76-80), and on the
Predict button runs a `try/except` block (lines 84-114) that
* applies three quantile transforms and two Box-Cox transforms,
* builds the table `df_trans` of original vs transformed values and
  renders it,
* assembles `X_user` from the table's "Transformed Value" column,
* calls `stack.predict` and `qt_TSN.inverse_transform`,
* renders the transformed and original TSN values,
and on any exception renders a single `st.error` message.

Python floats that are not finite real numbers (NaN, infinities) are
modelled by `none` in `Val := Option ℝ`; a step that can raise a Python
exception is modelled in `Except String`.  The opaque fitted artifacts
(quantile transforms, stacking predictor) are fields of `Artifacts`,
arbitrary functions, since the pipeline treats them as black boxes.
-/

noncomputable section

/-- A Python float: `some r` a finite real, `none` a non-finite value
(NaN or an infinity). -/
abbrev Val : Type := Option ℝ

/-- Embedding of `scipy.stats.boxcox(np.array([x]), lmbda=l)[0]` as called on
lines 89-90 of `ENG_APP.py`.  With `lmbda` not `None`, `scipy.stats.boxcox`
delegates directly to `scipy.special.boxcox`, whose documented semantics are:
`y = (x**lmbda - 1) / lmbda` for `lmbda != 0`, `log(x)` for `lmbda == 0`;
it returns `nan` for `x < 0` and a non-finite value (`-inf`) for `x == 0`
with `lmbda <= 0`.  No exception is raised and no positivity check is
performed on this code path. -/
def boxcox (lmbda x : ℝ) : Val :=
  if x < 0 then none
  else if x = 0 ∧ lmbda ≤ 0 then none
  else if lmbda = 0 then some (Real.log x)
  else some ((x ^ lmbda - 1) / lmbda)

/-- One row of the transformation table: feature name, original value,
transformed value. -/
abbrev Row : Type := String × ℝ × Val

/-- Embedding of the `pd.DataFrame` built on lines 92-96: the three columns
`Feature`, `Original Value`, `Transformed Value`, with the rows in the
order written in the source. -/
def df_trans (LCD Vf GSA Density Ktoluene : ℝ)
    (lcd_q vf_bc gsa_q density_q ktol_bc : Val) : List Row :=
  [("LCD", LCD, lcd_q),
   ("Vf", Vf, vf_bc),
   ("GSA", GSA, gsa_q),
   ("Density", Density, density_q),
   ("Ktoluene", Ktoluene, ktol_bc)]

/-- Embedding of line 103: `X_user = df_trans["Transformed Value"].to_numpy()`,
the "Transformed Value" column of the table, in row order. -/
def X_user (rows : List Row) : List Val :=
  rows.map (fun r => r.2.2)

/-- The seven artifacts returned by `load_models` (lines 60-70), as the
pipeline uses them.  The quantile transforms, stacking predictor and TSN
inverse transform are opaque fitted objects; any of their invocations may
raise a Python exception, modelled by `Except.error`.  The two Box-Cox
artifacts are plain real exponents. -/
structure Artifacts where
  qt_lcd : ℝ → Except String Val
  qt_gsa : ℝ → Except String Val
  qt_density : ℝ → Except String Val
  lambda_kt : ℝ
  lambda_vf : ℝ
  stack_predict : List Val → Except String Val
  qt_TSN_inv : Val → Except String Val

/-- One rendered UI element produced by the prediction block. -/
inductive Output where
  | transformTable (rows : List Row)
  | transformedTSN (v : Val)
  | originalTSN (v : Val)
  | errorMsg (msg : String)

/-- The message rendered by `st.error(f"Prediction error: {e}")` on line 114. -/
def predictionError (e : String) : Output :=
  Output.errorMsg ("Prediction error: " ++ e)

/-- Embedding of the `try/except` prediction block, lines 84-114: statements
run in source order; the first exception jumps to the `except` handler, which
renders a single error message after whatever was already rendered.  The
transformation table is rendered (line 100) before the predictor is invoked
(line 104); the two TSN result lines (109-110) are rendered only after the
inverse transform succeeded. -/
def predictionBlock (M : Artifacts) (LCD Vf GSA Density Ktoluene : ℝ) :
    List Output :=
  match M.qt_lcd LCD with
  | .error e => [predictionError e]
  | .ok lcd_q =>
    match M.qt_gsa GSA with
    | .error e => [predictionError e]
    | .ok gsa_q =>
      match M.qt_density Density with
      | .error e => [predictionError e]
      | .ok density_q =>
        let vf_bc := boxcox M.lambda_vf Vf
        let ktol_bc := boxcox M.lambda_kt Ktoluene
        let rows := df_trans LCD Vf GSA Density Ktoluene
          lcd_q vf_bc gsa_q density_q ktol_bc
        match M.stack_predict (X_user rows) with
        | .error e => [Output.transformTable rows, predictionError e]
        | .ok pred_trans =>
          match M.qt_TSN_inv pred_trans with
          | .error e => [Output.transformTable rows, predictionError e]
          | .ok pred_orig =>
            [Output.transformTable rows,
             Output.transformedTSN pred_trans,
             Output.originalTSN pred_orig]

/-- The artifact files as the storage collaborator presents them: `none`
means the file is absent (or unreadable), `some` carries the fitted object
`joblib.load` would return. -/
structure Disk where
  stacking_model : Option (List Val → Except String Val)
  qt_lcd_file : Option (ℝ → Except String Val)
  qt_gsa_file : Option (ℝ → Except String Val)
  qt_density_file : Option (ℝ → Except String Val)
  lambda_kt_file : Option ℝ
  lambda_vf_file : Option ℝ
  qt_TSN_file : Option (Val → Except String Val)

/-- `joblib.load(name)`: returns the stored object, or raises (here:
`Except.error` naming the file) when the file is absent. -/
def joblibLoad {α : Type} (name : String) (f : Option α) : Except String α :=
  match f with
  | some a => .ok a
  | none => .error (name ++ ": file not found")

/-- Embedding of `load_models` (lines 60-70): the dict literal loads the
seven artifacts in source order; the first `joblib.load` failure aborts the
whole call. -/
def load_models (d : Disk) : Except String Artifacts := do
  let stack ← joblibLoad "stacking_model.pkl" d.stacking_model
  let qlcd ← joblibLoad "qt_lcd.pkl" d.qt_lcd_file
  let qgsa ← joblibLoad "qt_GSA.pkl" d.qt_gsa_file
  let qden ← joblibLoad "qt_Density.pkl" d.qt_density_file
  let lkt ← joblibLoad "lambda_Ktoluene.pkl" d.lambda_kt_file
  let lvf ← joblibLoad "lambda_vf.pkl" d.lambda_vf_file
  let qtsn ← joblibLoad "qt_TSN.pkl" d.qt_TSN_file
  .ok { qt_lcd := qlcd, qt_gsa := qgsa, qt_density := qden,
        lambda_kt := lkt, lambda_vf := lvf,
        stack_predict := stack, qt_TSN_inv := qtsn }

/-- Outcome of one script run: `crashed` when `models = load_models()`
(line 72, outside every `try`) raised, so the exception left the script
uncaught; `ran` with the prediction block's rendered outputs otherwise
(empty when the Predict button was not pressed). -/
inductive AppResult where
  | crashed (msg : String)
  | ran (outputs : List Output)

/-- One run of the script body relevant to prediction: load the artifacts
(line 72), then, if the Predict button was pressed, run the prediction
block on the five widget values. -/
def runApp (d : Disk) (pressed : Bool) (LCD Vf GSA Density Ktoluene : ℝ) :
    AppResult :=
  match load_models d with
  | .error e => .crashed e
  | .ok M =>
    .ran (if pressed then predictionBlock M LCD Vf GSA Density Ktoluene else [])

/-- Embedding of `st.number_input(label, min_value, max_value, value)`:
the widget never delivers a value outside `[min_value, max_value]` (the
frontend rejects or clamps out-of-range entries), modelled as clamping an
arbitrary attempted value into the interval. -/
def numberInput (minv maxv v : ℝ) : ℝ :=
  max minv (min maxv v)

/-- The LCD widget, line 76 of the source. -/
def LCD_input (v : ℝ) : ℝ := numberInput 6.03338 39.1106 v

/-- The Vf widget, line 77 of the source. -/
def Vf_input (v : ℝ) : ℝ := numberInput 0.2574 0.9182 v

/-- The GSA widget, line 78 of the source. -/
def GSA_input (v : ℝ) : ℝ := numberInput 204.912 7061.42 v

/-- The Density widget, line 79 of the source. -/
def Density_input (v : ℝ) : ℝ := numberInput 0.237838 2.86501 v

/-- The Ktoluene widget, line 80 of the source. -/
def Ktoluene_input (v : ℝ) : ℝ := numberInput 0.000027383 28527.4 v

/-- The (min, max) bounds each widget enforces, read off lines 76-80 of the
source, keyed by feature name in pipeline order. -/
def widgetBounds : List (String × ℝ × ℝ) :=
  [("LCD", 6.03338, 39.1106),
   ("Vf", 0.2574, 0.9182),
   ("GSA", 204.912, 7061.42),
   ("Density", 0.237838, 2.86501),
   ("Ktoluene", 0.000027383, 28527.4)]

/-- The documented valid closed intervals of the five features, transcribed
from the specification's input-boundary table (spec section 6), for
comparison with `widgetBounds`. -/
def documentedBounds : List (String × ℝ × ℝ) :=
  [("LCD", 6.03338, 39.1106),
   ("Vf", 0.2574, 0.9182),
   ("GSA", 204.912, 7061.42),
   ("Density", 0.237838, 2.86501),
   ("Ktoluene", 0.000027383, 28527.4)]

/-- A concrete artifact assignment on which every fitted step succeeds:
the quantile transforms pass their input through, both Box-Cox exponents
are `1`, the predictor returns `0` and the TSN inverse transform passes
its input through.  Used to evaluate the pipeline at concrete inputs. -/
def okArtifacts : Artifacts where
  qt_lcd := fun x => .ok (some x)
  qt_gsa := fun x => .ok (some x)
  qt_density := fun x => .ok (some x)
  lambda_kt := 1
  lambda_vf := 1
  stack_predict := fun _ => .ok (some 0)
  qt_TSN_inv := fun v => .ok v

/-- Artifacts whose LCD quantile transform raises on every call. -/
def failArtifacts : Artifacts :=
  { okArtifacts with qt_lcd := fun _ => .error "boom" }

/-- Artifacts whose stacking predictor raises on every call. -/
def stackFailArtifacts : Artifacts :=
  { okArtifacts with stack_predict := fun _ => .error "shape mismatch" }

/-- A disk on which every artifact file is present except `qt_TSN.pkl`. -/
def missingTSNDisk : Disk where
  stacking_model := some okArtifacts.stack_predict
  qt_lcd_file := some okArtifacts.qt_lcd
  qt_gsa_file := some okArtifacts.qt_gsa
  qt_density_file := some okArtifacts.qt_density
  lambda_kt_file := some 1
  lambda_vf_file := some 1
  qt_TSN_file := none

end

/-- Helper: on a strictly positive input the Box-Cox embedding takes the
ordinary-value branch. -/
theorem boxcox_of_pos {lmbda x : ℝ} (hx : 0 < x) :
    boxcox lmbda x
      = some (if lmbda = 0 then Real.log x else (x ^ lmbda - 1) / lmbda) := by
  unfold boxcox
  rw [if_neg (not_lt.mpr hx.le), if_neg (by rintro ⟨h0, _⟩; exact hx.ne' h0)]
  split <;> rfl

/-- Helper: on a strictly positive input the Box-Cox embedding yields a
finite value (no NaN, no infinity). -/
theorem boxcox_isSome_of_pos (lmbda x : ℝ) (hx : 0 < x) :
    (boxcox lmbda x).isSome := by
  rw [boxcox_of_pos hx]; rfl

/-- C1: for every strictly positive input `x`, the Box-Cox normalizer used
for Vf and Ktoluene computes `(x ^ lmbda - 1) / lmbda` when the fitted
exponent `lmbda` is nonzero, and `ln x` when `lmbda = 0`. -/
theorem boxcox_spec_C1 (lmbda x : ℝ) (hx : 0 < x) :
    (lmbda ≠ 0 → boxcox lmbda x = some ((x ^ lmbda - 1) / lmbda)) ∧
    (lmbda = 0 → boxcox lmbda x = some (Real.log x)) := by
  constructor
  · intro h; rw [boxcox_of_pos hx, if_neg h]
  · intro h; rw [boxcox_of_pos hx, if_pos h]

/-- Witness for C1 at `lmbda = 1`, `x = 2`. -/
theorem boxcox_spec_C1_witness :
    (0:ℝ) < 2 ∧
    (((1:ℝ) ≠ 0 → boxcox 1 2 = some (((2:ℝ) ^ (1:ℝ) - 1) / 1)) ∧
     ((1:ℝ) = 0 → boxcox 1 2 = some (Real.log 2))) :=
  ⟨by norm_num, boxcox_spec_C1 1 2 (by norm_num)⟩

/-- Counterexample to C6 as stated: at exponent `lmbda = 1` the Box-Cox
normalizer applied to `x = 0` returns the ordinary finite value `-1` — no
error of any kind — and a whole pipeline run that feeds `Ktoluene = 0`
into it completes without rendering any error message. -/
theorem boxcox_nonpos_C6_counterexample :
    boxcox 1 0 = some (-1) ∧
    (∀ m, Output.errorMsg m ∉ predictionBlock okArtifacts 8.33 1 701.884 1.51454 0) := by
  constructor
  · unfold boxcox
    rw [if_neg (lt_irrefl 0), if_neg (by norm_num), if_neg one_ne_zero]
    norm_num [Real.rpow_one]
  · intro m
    simp [predictionBlock, okArtifacts, X_user, df_trans]

/-- C6, amended: invoking the Box-Cox normalizer with `x < 0` silently
yields NaN; with `x = 0` it silently yields the ordinary finite value
`-1 / lmbda` when `lmbda > 0` and a non-finite value when `lmbda ≤ 0`.
No TransformDomainError is raised or returned in any of these cases. -/
theorem boxcox_nonpos_silent_C6 (lmbda x : ℝ) (hx : x ≤ 0) :
    (x < 0 → boxcox lmbda x = none) ∧
    (x = 0 → 0 < lmbda → boxcox lmbda x = some (-1 / lmbda)) ∧
    (x = 0 → lmbda ≤ 0 → boxcox lmbda x = none) := by
  refine ⟨fun hneg => ?_, fun h0 hl => ?_, fun h0 hl => ?_⟩
  · unfold boxcox; rw [if_pos hneg]
  · subst h0
    unfold boxcox
    rw [if_neg (lt_irrefl 0), if_neg (by rintro ⟨_, h⟩; exact absurd hl (not_lt.mpr h)),
      if_neg (ne_of_gt hl)]
    rw [Real.zero_rpow (ne_of_gt hl)]
    norm_num
  · subst h0
    unfold boxcox
    rw [if_neg (lt_irrefl 0), if_pos ⟨rfl, hl⟩]

/-- Witness for the amended C6 at `lmbda = 2`, `x = -1`. -/
theorem boxcox_nonpos_silent_C6_witness :
    (-1 : ℝ) ≤ 0 ∧
    (((-1:ℝ) < 0 → boxcox 2 (-1) = none) ∧
     ((-1:ℝ) = 0 → (0:ℝ) < 2 → boxcox 2 (-1) = some (-1 / 2)) ∧
     ((-1:ℝ) = 0 → (2:ℝ) ≤ 0 → boxcox 2 (-1) = none)) :=
  ⟨by norm_num, boxcox_nonpos_silent_C6 2 (-1) (by norm_num)⟩

/-- Helper: the clamped widget value stays inside its bounds. -/
theorem numberInput_mem (minv maxv v : ℝ) (h : minv ≤ maxv) :
    minv ≤ numberInput minv maxv v ∧ numberInput minv maxv v ≤ maxv := by
  unfold numberInput
  exact ⟨le_max_left _ _, max_le h (min_le_left _ _)⟩

/-- C10: the five input widgets enforce exactly the documented per-feature
closed intervals, so every value the input boundary can deliver lies in its
documented interval; in particular the Vf and Ktoluene values are strictly
positive, so the Box-Cox normalizer always takes its ordinary finite-value
branch on the interactive path (the non-positive-input branches are
unreachable). -/
theorem widget_bounds_C10 :
    widgetBounds = documentedBounds ∧
    (∀ v, 6.03338 ≤ LCD_input v ∧ LCD_input v ≤ 39.1106) ∧
    (∀ v, 0.2574 ≤ Vf_input v ∧ Vf_input v ≤ 0.9182) ∧
    (∀ v, 204.912 ≤ GSA_input v ∧ GSA_input v ≤ 7061.42) ∧
    (∀ v, 0.237838 ≤ Density_input v ∧ Density_input v ≤ 2.86501) ∧
    (∀ v, 0.000027383 ≤ Ktoluene_input v ∧ Ktoluene_input v ≤ 28527.4) ∧
    (∀ v, 0 < Vf_input v ∧ 0 < Ktoluene_input v) ∧
    (∀ lmbda v,
      (boxcox lmbda (Vf_input v)).isSome ∧
      (boxcox lmbda (Ktoluene_input v)).isSome) := by
  have hvf : ∀ v, 0 < Vf_input v := fun v =>
    lt_of_lt_of_le (by norm_num) (numberInput_mem 0.2574 0.9182 v (by norm_num)).1
  have hkt : ∀ v, 0 < Ktoluene_input v := fun v =>
    lt_of_lt_of_le (by norm_num) (numberInput_mem 0.000027383 28527.4 v (by norm_num)).1
  refine ⟨rfl, fun v => numberInput_mem _ _ v (by norm_num),
    fun v => numberInput_mem _ _ v (by norm_num),
    fun v => numberInput_mem _ _ v (by norm_num),
    fun v => numberInput_mem _ _ v (by norm_num),
    fun v => numberInput_mem _ _ v (by norm_num),
    fun v => ⟨hvf v, hkt v⟩,
    fun lmbda v => ⟨boxcox_isSome_of_pos _ _ (hvf v), boxcox_isSome_of_pos _ _ (hkt v)⟩⟩

/-- Helper: exhaustive shape analysis of one prediction run — it ends in
one of exactly three rendered forms. -/
theorem predictionBlock_cases (M : Artifacts) (LCD Vf GSA Density Ktoluene : ℝ) :
    (∃ e, predictionBlock M LCD Vf GSA Density Ktoluene = [predictionError e]) ∨
    (∃ rows e, predictionBlock M LCD Vf GSA Density Ktoluene
        = [Output.transformTable rows, predictionError e]) ∨
    (∃ rows t o, predictionBlock M LCD Vf GSA Density Ktoluene
        = [Output.transformTable rows, Output.transformedTSN t,
           Output.originalTSN o]) := by
  unfold predictionBlock
  cases hl : M.qt_lcd LCD with
  | error e => exact Or.inl ⟨e, rfl⟩
  | ok lcd_q =>
    cases hg : M.qt_gsa GSA with
    | error e => exact Or.inl ⟨e, rfl⟩
    | ok gsa_q =>
      cases hd : M.qt_density Density with
      | error e => exact Or.inl ⟨e, rfl⟩
      | ok density_q =>
        dsimp only
        cases hs : M.stack_predict (X_user (df_trans LCD Vf GSA Density Ktoluene
            lcd_q (boxcox M.lambda_vf Vf) gsa_q density_q
            (boxcox M.lambda_kt Ktoluene))) with
        | error e => exact Or.inr (Or.inl ⟨_, e, rfl⟩)
        | ok pred_trans =>
          dsimp only
          cases ht : M.qt_TSN_inv pred_trans with
          | error e => exact Or.inr (Or.inl ⟨_, e, rfl⟩)
          | ok pred_orig => exact Or.inr (Or.inr ⟨_, _, _, rfl⟩)

/-- C3: every prediction run ends in one of three rendered forms — an
error message alone, the transformation table followed by an error
message, or the table followed by the two TSN results.  In particular any
exception raised in the transform, assembly, prediction or
de-normalization steps is caught at the `try/except` boundary and turned
into a single human-readable `Prediction error` message; every run
returns a rendered output list, so no per-request error escapes the
pipeline. -/
theorem errors_caught_C3 (M : Artifacts) (LCD Vf GSA Density Ktoluene : ℝ) :
    (∃ e, predictionBlock M LCD Vf GSA Density Ktoluene = [predictionError e]) ∨
    (∃ rows e, predictionBlock M LCD Vf GSA Density Ktoluene
        = [Output.transformTable rows, predictionError e]) ∨
    (∃ rows t o, predictionBlock M LCD Vf GSA Density Ktoluene
        = [Output.transformTable rows, Output.transformedTSN t,
           Output.originalTSN o]) :=
  predictionBlock_cases M LCD Vf GSA Density Ktoluene

/-- C4: a prediction run that rendered an error message renders no
PredictionResult: neither a transformed nor an original TSN value appears
in its output. -/
theorem failed_no_result_C4 (M : Artifacts) (LCD Vf GSA Density Ktoluene : ℝ)
    (m : String)
    (hfail : Output.errorMsg m ∈ predictionBlock M LCD Vf GSA Density Ktoluene) :
    (∀ t, Output.transformedTSN t ∉ predictionBlock M LCD Vf GSA Density Ktoluene) ∧
    (∀ o, Output.originalTSN o ∉ predictionBlock M LCD Vf GSA Density Ktoluene) := by
  rcases predictionBlock_cases M LCD Vf GSA Density Ktoluene with
    ⟨e, hpb⟩ | ⟨rows, e, hpb⟩ | ⟨rows, t, o, hpb⟩
  · rw [hpb]; constructor <;> intro x <;> simp [predictionError]
  · rw [hpb]; constructor <;> intro x <;> simp [predictionError]
  · rw [hpb] at hfail; simp at hfail

/-- Witness for C4: with an LCD transform that raises, the run renders the
error message and no TSN value. -/
theorem failed_no_result_C4_witness :
    (Output.errorMsg ("Prediction error: " ++ "boom")
        ∈ predictionBlock failArtifacts 1 1 1 1 1) ∧
    (∀ t, Output.transformedTSN t ∉ predictionBlock failArtifacts 1 1 1 1 1) ∧
    (∀ o, Output.originalTSN o ∉ predictionBlock failArtifacts 1 1 1 1 1) :=
  ⟨by simp [predictionBlock, failArtifacts, okArtifacts, predictionError],
   failed_no_result_C4 failArtifacts 1 1 1 1 1 ("Prediction error: " ++ "boom")
     (by simp [predictionBlock, failArtifacts, okArtifacts, predictionError])⟩

/-- C2: when the three quantile transforms succeed, the feature vector
handed to the ensemble predictor is exactly
`[LCD_norm, Vf_norm, GSA_norm, Density_norm, Ktoluene_norm]` in that fixed
order: two runs whose predictors agree on that one vector render
identically, so the predictor is consulted at no other input. -/
theorem assembled_vector_order_C2 (M : Artifacts)
    (f g : List Val → Except String Val)
    (LCD Vf GSA Density Ktoluene : ℝ) (lcd_q gsa_q density_q : Val)
    (h1 : M.qt_lcd LCD = .ok lcd_q) (h2 : M.qt_gsa GSA = .ok gsa_q)
    (h3 : M.qt_density Density = .ok density_q)
    (hfg : f [lcd_q, boxcox M.lambda_vf Vf, gsa_q, density_q,
              boxcox M.lambda_kt Ktoluene]
         = g [lcd_q, boxcox M.lambda_vf Vf, gsa_q, density_q,
              boxcox M.lambda_kt Ktoluene]) :
    predictionBlock { M with stack_predict := f } LCD Vf GSA Density Ktoluene
      = predictionBlock { M with stack_predict := g } LCD Vf GSA Density Ktoluene := by
  obtain ⟨q1, q2, q3, lk, lv, sp, ti⟩ := M
  simp only at h1 h2 h3 hfg
  unfold predictionBlock
  dsimp only
  rw [h1, h2, h3]
  dsimp only [X_user, df_trans, List.map]
  rw [hfg]

/-- Witness for C2 with pass-through artifacts and two identical predictors. -/
theorem assembled_vector_order_C2_witness :
    okArtifacts.qt_lcd 8.33 = .ok (some 8.33) ∧
    okArtifacts.qt_gsa 701.884 = .ok (some 701.884) ∧
    okArtifacts.qt_density 1.51454 = .ok (some 1.51454) ∧
    predictionBlock { okArtifacts with stack_predict := okArtifacts.stack_predict }
        8.33 0.5726 701.884 1.51454 0.013545
      = predictionBlock { okArtifacts with stack_predict := okArtifacts.stack_predict }
        8.33 0.5726 701.884 1.51454 0.013545 :=
  ⟨rfl, rfl, rfl,
   assembled_vector_order_C2 okArtifacts okArtifacts.stack_predict
     okArtifacts.stack_predict 8.33 0.5726 701.884 1.51454 0.013545
     (some 8.33) (some 701.884) (some 1.51454) rfl rfl rfl rfl⟩

/-- C7: whenever the five transforms succeed (the run reaches the
Transformed state), the table of original vs transformed values for all
five features is among the rendered outputs, whatever the predictor and
the inverse transform then do. -/
theorem table_always_shown_C7 (M : Artifacts) (LCD Vf GSA Density Ktoluene : ℝ)
    (lcd_q gsa_q density_q : Val)
    (h1 : M.qt_lcd LCD = .ok lcd_q) (h2 : M.qt_gsa GSA = .ok gsa_q)
    (h3 : M.qt_density Density = .ok density_q) :
    Output.transformTable (df_trans LCD Vf GSA Density Ktoluene lcd_q
        (boxcox M.lambda_vf Vf) gsa_q density_q (boxcox M.lambda_kt Ktoluene))
      ∈ predictionBlock M LCD Vf GSA Density Ktoluene := by
  unfold predictionBlock
  rw [h1, h2, h3]
  dsimp only
  cases hs : M.stack_predict (X_user (df_trans LCD Vf GSA Density Ktoluene
      lcd_q (boxcox M.lambda_vf Vf) gsa_q density_q
      (boxcox M.lambda_kt Ktoluene))) with
  | error e => exact List.mem_cons_self _ _
  | ok pred_trans =>
    dsimp only
    cases ht : M.qt_TSN_inv pred_trans with
    | error e => exact List.mem_cons_self _ _
    | ok pred_orig => exact List.mem_cons_self _ _

/-- Witness for C7: even with a predictor that raises on every call, the
transformation table is rendered. -/
theorem table_always_shown_C7_witness :
    stackFailArtifacts.qt_lcd 8.33 = .ok (some 8.33) ∧
    stackFailArtifacts.qt_gsa 701.884 = .ok (some 701.884) ∧
    stackFailArtifacts.qt_density 1.51454 = .ok (some 1.51454) ∧
    Output.transformTable (df_trans 8.33 0.5726 701.884 1.51454 0.013545
        (some 8.33) (boxcox stackFailArtifacts.lambda_vf 0.5726)
        (some 701.884) (some 1.51454)
        (boxcox stackFailArtifacts.lambda_kt 0.013545))
      ∈ predictionBlock stackFailArtifacts 8.33 0.5726 701.884 1.51454 0.013545 :=
  ⟨rfl, rfl, rfl,
   table_always_shown_C7 stackFailArtifacts 8.33 0.5726 701.884 1.51454 0.013545
     (some 8.33) (some 701.884) (some 1.51454) rfl rfl rfl⟩

/-- C8: the pipeline is a deterministic function of its inputs and
artifacts — two invocations with equal RawFeatureSets and equal artifacts
render equal results. -/
theorem deterministic_C8 (M M' : Artifacts)
    (LCD Vf GSA Density Ktoluene LCD' Vf' GSA' Density' Ktoluene' : ℝ)
    (hM : M = M') (h1 : LCD = LCD') (h2 : Vf = Vf') (h3 : GSA = GSA')
    (h4 : Density = Density') (h5 : Ktoluene = Ktoluene') :
    predictionBlock M LCD Vf GSA Density Ktoluene
      = predictionBlock M' LCD' Vf' GSA' Density' Ktoluene' := by
  subst hM h1 h2 h3 h4 h5; rfl

/-- Witness for C8 at the documented default inputs. -/
theorem deterministic_C8_witness :
    okArtifacts = okArtifacts ∧ (8.33:ℝ) = 8.33 ∧ (0.5726:ℝ) = 0.5726 ∧
    (701.884:ℝ) = 701.884 ∧ (1.51454:ℝ) = 1.51454 ∧ (0.013545:ℝ) = 0.013545 ∧
    predictionBlock okArtifacts 8.33 0.5726 701.884 1.51454 0.013545
      = predictionBlock okArtifacts 8.33 0.5726 701.884 1.51454 0.013545 :=
  ⟨rfl, rfl, rfl, rfl, rfl, rfl,
   deterministic_C8 okArtifacts okArtifacts 8.33 0.5726 701.884 1.51454 0.013545
     8.33 0.5726 701.884 1.51454 0.013545 rfl rfl rfl rfl rfl rfl⟩

/-- Counterexample to C5 as stated: with every artifact file present except
`qt_TSN.pkl`, the script crashes while loading artifacts at startup
(line 72, outside the per-request handler) — the run never reaches the
prediction pipeline, let alone a Failed state at the de-normalization
step. -/
theorem missing_tsn_C5_counterexample :
    runApp missingTSNDisk true 8.33 0.5726 701.884 1.51454 0.013545
      = AppResult.crashed ("qt_TSN.pkl" ++ ": file not found") ∧
    ∀ outs, runApp missingTSNDisk true 8.33 0.5726 701.884 1.51454 0.013545
      ≠ AppResult.ran outs := by
  have h : runApp missingTSNDisk true 8.33 0.5726 701.884 1.51454 0.013545
      = AppResult.crashed ("qt_TSN.pkl" ++ ": file not found") := rfl
  refine ⟨h, fun outs hc => ?_⟩
  rw [h] at hc
  exact AppResult.noConfusion hc

/-- C5, amended: if the TSN inverse-transform artifact is absent, artifact
loading fails at process startup — before any prediction request runs — so
the run crashes and no predicted value (and no per-request error message)
is ever rendered. -/
theorem missing_tsn_startup_failure_C5 (d : Disk) (pressed : Bool)
    (LCD Vf GSA Density Ktoluene : ℝ) (h : d.qt_TSN_file = none) :
    ∃ msg, runApp d pressed LCD Vf GSA Density Ktoluene
      = AppResult.crashed msg := by
  obtain ⟨s, l, g, dn, lk, lv, t⟩ := d
  obtain rfl : t = none := h
  unfold runApp load_models joblibLoad
  cases s <;> cases l <;> cases g <;> cases dn <;> cases lk <;> cases lv <;>
    simp [Bind.bind, Except.bind]

/-- Witness for the amended C5 on the concrete disk missing only
`qt_TSN.pkl`. -/
theorem missing_tsn_startup_failure_C5_witness :
    missingTSNDisk.qt_TSN_file = none ∧
    ∃ msg, runApp missingTSNDisk true 1 1 1 1 1 = AppResult.crashed msg :=
  ⟨rfl, missing_tsn_startup_failure_C5 missingTSNDisk true 1 1 1 1 1 rfl⟩

/-- C9: if a run rendered the transformation table followed by the two TSN
results, then the transformed TSN value shown is the predictor's output on
exactly the "Transformed Value" column of that table, in the same row
order — what is displayed is what was fed to the model. -/
theorem model_input_matches_table_C9 (M : Artifacts)
    (LCD Vf GSA Density Ktoluene : ℝ) (rows : List Row) (t o : Val)
    (h : predictionBlock M LCD Vf GSA Density Ktoluene
      = [Output.transformTable rows, Output.transformedTSN t,
         Output.originalTSN o]) :
    M.stack_predict (X_user rows) = .ok t := by
  unfold predictionBlock at h
  cases hl : M.qt_lcd LCD with
  | error e => rw [hl] at h; simp [predictionError] at h
  | ok lcd_q =>
    rw [hl] at h
    cases hg : M.qt_gsa GSA with
    | error e => rw [hg] at h; simp [predictionError] at h
    | ok gsa_q =>
      rw [hg] at h
      cases hd : M.qt_density Density with
      | error e => rw [hd] at h; simp [predictionError] at h
      | ok density_q =>
        rw [hd] at h
        dsimp only at h
        cases hs : M.stack_predict (X_user (df_trans LCD Vf GSA Density Ktoluene
            lcd_q (boxcox M.lambda_vf Vf) gsa_q density_q
            (boxcox M.lambda_kt Ktoluene))) with
        | error e => rw [hs] at h; simp [predictionError] at h
        | ok pred_trans =>
          rw [hs] at h
          dsimp only at h
          cases ht : M.qt_TSN_inv pred_trans with
          | error e => rw [ht] at h; simp [predictionError] at h
          | ok pred_orig =>
            rw [ht] at h
            simp only [List.cons.injEq, Output.transformTable.injEq,
              Output.transformedTSN.injEq, Output.originalTSN.injEq,
              and_true] at h
            obtain ⟨hrows, hts, -⟩ := h
            subst hts
            rw [← hrows]
            exact hs

/-- Witness for C9 with pass-through artifacts at the documented default
inputs. -/
theorem model_input_matches_table_C9_witness :
    (predictionBlock okArtifacts 8.33 0.5726 701.884 1.51454 0.013545
      = [Output.transformTable (df_trans 8.33 0.5726 701.884 1.51454 0.013545
           (some 8.33) (boxcox 1 0.5726) (some 701.884) (some 1.51454)
           (boxcox 1 0.013545)),
         Output.transformedTSN (some 0), Output.originalTSN (some 0)]) ∧
    okArtifacts.stack_predict (X_user (df_trans 8.33 0.5726 701.884 1.51454
        0.013545 (some 8.33) (boxcox 1 0.5726) (some 701.884) (some 1.51454)
        (boxcox 1 0.013545)))
      = .ok (some 0) :=
  ⟨rfl,
   model_input_matches_table_C9 okArtifacts 8.33 0.5726 701.884 1.51454 0.013545
     (df_trans 8.33 0.5726 701.884 1.51454 0.013545 (some 8.33)
       (boxcox 1 0.5726) (some 701.884) (some 1.51454) (boxcox 1 0.013545))
     (some 0) (some 0) rfl⟩
